import Mathlib

/-!
Shallow embedding of `touchp.py` (touchp v1.0).

Modelling conventions:
* Timestamps (Python floats, seconds since the epoch) are rationals `ℚ`.
* A filesystem is a map `String → Option FileStat`; `none` means the path
  does not exist.  `os.stat` reads the entry, `os.utime` / file creation
  replace it.
* The process state `Sys` carries the filesystem, a clock counter and the
  stdout / stderr lines printed so far.  Each call of
  `datetime.datetime.now()` (and each kernel "now" used by
  `os.utime(path, None)` or by file creation) returns `env.clock k` for the
  next counter value `k`, so successive "now" calls are distinct samples.
* Fallible OS calls are driven by oracles in `Env`: `createOk p` tells
  whether `open(p, "a")` succeeds, `utimeOk p` whether `os.utime(p, ·)`
  succeeds.
* Python strings handed to `int()` / `split('.')` in the `-t` parser are
  modelled as `List Char`.
* `dateutil.parser.parse(...).timestamp()` (the `-d` branch) is an external
  library; it is an abstract parameter `parseDate : String → Option ℚ`
  (`none` = the `ValueError`/`OverflowError` path).  Likewise
  `datetime(...).timestamp()` for the `-t` branch is an abstract injection
  `stamp : PyDateTime → ℚ`.
-/

namespace Touchp

/-- An `os.stat` result: the two timestamps the program reads. -/
structure FileStat where
  st_atime : ℚ
  st_mtime : ℚ
deriving DecidableEq, Repr

/-- Process state: filesystem, clock counter, stdout and stderr lines. -/
structure Sys where
  fs : String → Option FileStat
  clk : Nat
  out : List String
  err : List String

/-- Environment oracles: the clock stream and per-path success of the two
fallible OS calls (`open` for creation, `os.utime`). -/
structure Env where
  clock : Nat → ℚ
  createOk : String → Bool
  utimeOk : String → Bool

/-- The `final_atime`/`final_mtime` computation of `update_timestamps`
(touchp.py lines 66–69): each missing slot defaults to the sibling, then to
the file's current stat value. -/
def finalTimes (mtime atime : Option ℚ) (st : FileStat) : ℚ × ℚ :=
  (atime.getD (mtime.getD st.st_atime), mtime.getD (atime.getD st.st_mtime))

/-- touchp.py lines 56–77: the part of `update_timestamps` that runs once the
file exists.  Both `None` ⇒ `os.utime(path, None)` (kernel current time);
otherwise fill missing slots from the sibling / the file's stat and set both.
The `os.stat` in the source cannot fail there (the file exists), so the
impossible branch returns the state unchanged. -/
def applyTimes (env : Env) (filepath : String) (mtime atime : Option ℚ)
    (s : Sys) : Bool × Sys :=
  if mtime = none ∧ atime = none then
    if env.utimeOk filepath then
      let t := env.clock s.clk
      (true, { s with
        fs := fun q => if q = filepath then some ⟨t, t⟩ else s.fs q,
        clk := s.clk + 1 })
    else
      (false, { s with
        err := s.err ++ ["touchp: setting times for " ++ filepath] })
  else
    match s.fs filepath with
    | none => (false, s)
    | some st =>
      let ft := finalTimes mtime atime st
      if env.utimeOk filepath then
        (true, { s with
          fs := fun q => if q = filepath then some ⟨ft.1, ft.2⟩ else s.fs q })
      else
        (false, { s with
          err := s.err ++ ["touchp: setting times for " ++ filepath] })

/-- The stdout diagnostic for a path skipped under `-c` (touchp.py line 45). -/
def skipMsg (filepath : String) : String :=
  "touchp: cannot touch " ++ filepath ++
    ": No such file or directory (and -c flag is set)"

/-- touchp.py lines 29–77, `update_timestamps(filepath, mtime, atime,
no_create)`.  Creates the file if missing (unless `no_create`), then sets the
times; returns `true` iff the file was updated or created.  A freshly created
empty file's stat is the creation instant (one clock sample). -/
def update_timestamps (env : Env) (filepath : String) (mtime atime : Option ℚ)
    (no_create : Bool) (s : Sys) : Bool × Sys :=
  match s.fs filepath with
  | none =>
    if no_create then
      (false, { s with out := s.out ++ [skipMsg filepath] })
    else if env.createOk filepath then
      let t := env.clock s.clk
      applyTimes env filepath mtime atime
        { s with
          fs := fun q => if q = filepath then some ⟨t, t⟩ else s.fs q,
          clk := s.clk + 1,
          out := s.out ++ ["touchp: created " ++ filepath] }
    else
      (false, { s with err := s.err ++ ["touchp: cannot create " ++ filepath] })
  | some _ => applyTimes env filepath mtime atime s

/-- A `datetime.datetime` value as built by the `-t` branch. -/
structure PyDateTime where
  year : Nat
  month : Nat
  day : Nat
  hour : Nat
  minute : Nat
  second : Nat
deriving DecidableEq, Repr

/-- Gregorian leap-year rule, as implemented by Python's `datetime`. -/
def isLeap (y : Nat) : Bool :=
  (y % 4 == 0 && y % 100 != 0) || y % 400 == 0

/-- Days in a month, as validated by Python's `datetime` constructor. -/
def daysInMonth (y m : Nat) : Nat :=
  if m = 2 then (if isLeap y then 29 else 28)
  else if m = 4 ∨ m = 6 ∨ m = 9 ∨ m = 11 then 30
  else 31

/-- Model of `datetime.datetime(y, m, d, h, mi, s)`: `none` is the `ValueError`
raised on an out-of-range field (touchp.py line 220). -/
def mkDatetime (y m d h mi s : Nat) : Option PyDateTime :=
  if 1 ≤ y ∧ y ≤ 9999 ∧ 1 ≤ m ∧ m ≤ 12 ∧ 1 ≤ d ∧ d ≤ daysInMonth y m ∧
      h ≤ 23 ∧ mi ≤ 59 ∧ s ≤ 59 then
    some ⟨y, m, d, h, mi, s⟩
  else none

/-- Numeric value of a digit character. -/
def digitVal (c : Char) : Nat := c.toNat - 48

/-- Python `int()` on a slice of the `-t` spec: succeeds on a nonempty
all-digit string (`none` models the `ValueError` on anything else). -/
def pyInt (l : List Char) : Option Nat :=
  if !l.isEmpty && l.all Char.isDigit then
    some (l.foldl (fun a c => 10 * a + digitVal c) 0)
  else none

/-- Model of the test `'.' in t_str` (touchp.py line 203). -/
def hasDot (l : List Char) : Bool := l.any (fun c => c == '.')

/-- Python `str.split('.')` on a character list. -/
def splitDot : List Char → List (List Char)
  | [] => [[]]
  | c :: rest =>
    if c = '.' then [] :: splitDot rest
    else
      match splitDot rest with
      | [] => [[c]]
      | h :: t => (c :: h) :: t

/-- Model of `str(n)` for a natural number: decimal digits, most significant first. -/
def natDigits (n : Nat) : List Char :=
  if _h : n < 10 then [Nat.digitChar n]
  else natDigits (n / 10) ++ [Nat.digitChar (n % 10)]
decreasing_by exact Nat.div_lt_self (by omega) (by omega)

/-- Model of `str(now.year)[:2]` (touchp.py line 212): the first two characters of the
current year's decimal representation. -/
def centuryDigits (y : Nat) : List Char := (natDigits y).take 2

/-- touchp.py lines 199–221: the `[[CC]YY]MMDDhhmm[.ss]` parser of the `-t`
branch.  `nowYear`/`nowSec` are `datetime.datetime.now()`'s year and second.
`none` models every caught failure path: a split that does not unpack into
exactly two parts, a non-integer slice or seconds part, a digit-string length
other than 8/10/12, or an out-of-range calendar field. -/
def parseT (nowYear nowSec : Nat) (t : List Char) : Option PyDateTime :=
  let split : Option (List Char × Option Nat) :=
    if hasDot t then
      match splitDot t with
      | [a, b] => some (a, pyInt b)
      | _ => none
    else some (t, some nowSec)
  match split with
  | none => none
  | some (ts, ssv) =>
    let fields : Option (Nat × Nat × Nat × Nat × Nat) :=
      if ts.length = 8 then
        match pyInt (ts.take 2), pyInt ((ts.drop 2).take 2),
            pyInt ((ts.drop 4).take 2), pyInt ((ts.drop 6).take 2) with
        | some mm, some dd, some hh, some mi => some (nowYear, mm, dd, hh, mi)
        | _, _, _, _ => none
      else if ts.length = 10 then
        match pyInt (centuryDigits nowYear ++ ts.take 2),
            pyInt ((ts.drop 2).take 2), pyInt ((ts.drop 4).take 2),
            pyInt ((ts.drop 6).take 2), pyInt ((ts.drop 8).take 2) with
        | some yy, some mm, some dd, some hh, some mi =>
          some (yy, mm, dd, hh, mi)
        | _, _, _, _, _ => none
      else if ts.length = 12 then
        match pyInt (ts.take 4), pyInt ((ts.drop 4).take 2),
            pyInt ((ts.drop 6).take 2), pyInt ((ts.drop 8).take 2),
            pyInt ((ts.drop 10).take 2) with
        | some yy, some mm, some dd, some hh, some mi =>
          some (yy, mm, dd, hh, mi)
        | _, _, _, _, _ => none
      else none
    match fields, ssv with
    | some (yy, mm, dd, hh, mi), some ss => mkDatetime yy mm dd hh mi ss
    | _, _ => none

/-- The parsed command line (touchp.py lines 163–177).  argparse guarantees
`-d` / `-r` / `-t` are mutually exclusive; the `-t` spec is kept as the
character list the parser slices. -/
structure Args where
  file : List String
  a : Bool
  m : Bool
  no_create : Bool
  date : Option String
  reference : Option String
  t : Option (List Char)

/-- Python truthiness of an optional string (`if args.reference:` …):
`None` and the empty string are falsy. -/
def truthyS : Option String → Bool
  | none => false
  | some s => !(s == "")

/-- Python truthiness of the optional `-t` character list. -/
def truthyL : Option (List Char) → Bool
  | none => false
  | some l => !l.isEmpty

/-- touchp.py lines 183–225: resolve the mutually exclusive time source into
`(atime_change, mtime_change)`.  `.error` is a `sys.exit(1)` with the given
stderr message; on success no state is changed (the reference branch only
reads `os.stat`).  `parseDate` abstracts `dateutil.parser.parse(...)
.timestamp()`, `stamp` abstracts `datetime(...).timestamp()`. -/
def resolveSource (fs : String → Option FileStat)
    (parseDate : String → Option ℚ) (stamp : PyDateTime → ℚ)
    (nowYear nowSec : Nat) (args : Args) :
    Except String (Option ℚ × Option ℚ) :=
  if truthyS args.reference then
    let r := args.reference.getD ""
    match fs r with
    | none =>
      .error ("touchp: failed to get attributes of " ++ r ++
        ": No such file or directory")
    | some st => .ok (some st.st_atime, some st.st_mtime)
  else if truthyS args.date then
    let d := args.date.getD ""
    match parseDate d with
    | none => .error ("touchp: invalid date format " ++ d)
    | some q => .ok (some q, some q)
  else if truthyL args.t then
    match parseT nowYear nowSec (args.t.getD []) with
    | none => .error "touchp: invalid date format for -t spec"
    | some dt => .ok (some (stamp dt), some (stamp dt))
  else .ok (none, none)

/-- Model of `x or datetime.datetime.now().timestamp()` (touchp.py lines 230–235):
Python's `or` takes the right operand when the left is `None` **or the falsy
float `0.0`**; `now()` is evaluated lazily, consuming one clock sample. -/
def orNow (env : Env) (x : Option ℚ) (s : Sys) : ℚ × Sys :=
  match x with
  | some q =>
    if q = 0 then (env.clock s.clk, { s with clk := s.clk + 1 })
    else (q, s)
  | none => (env.clock s.clk, { s with clk := s.clk + 1 })

/-- touchp.py lines 228–235: turn `(atime_change, mtime_change)` into
`(atime_final, mtime_final)` according to `-a` / `-m`. -/
def flagPhase (env : Env) (a m : Bool) (ac mc : Option ℚ) (s : Sys) :
    (Option ℚ × Option ℚ) × Sys :=
  if a && !m then
    let r := orNow env ac s
    ((some r.1, none), r.2)
  else if m && !a then
    let r := orNow env mc s
    ((none, some r.1), r.2)
  else
    let r1 := orNow env ac s
    let r2 := orNow env mc r1.2
    ((some r1.1, some r2.1), r2.2)

/-- touchp.py lines 238–241: touch every path, collecting the successes in
order. -/
def touchLoop (env : Env) (mtime atime : Option ℚ) (no_create : Bool) :
    List String → Sys → List String × Sys
  | [], s => ([], s)
  | p :: rest, s =>
    let r1 := update_timestamps env p mtime atime no_create s
    let r2 := touchLoop env mtime atime no_create rest r1.2
    (if r1.1 then p :: r2.1 else r2.1, r2.2)

/-- How `main` ends: `sys.exit(code)` before the GUI, or handing the
successfully touched paths to the `PasteDialog` presentation layer. -/
inductive MainOut
  | exited (code : Nat)
  | gui (successful : List String)
deriving DecidableEq, Repr

/-- The process exit code.  The GUI event loop (`sys.exit(app.exec_())`,
touchp.py line 258) is the out-of-scope presentation layer; its normal
termination returns 0. -/
def exitCode : MainOut → Nat
  | .exited c => c
  | .gui _ => 0

/-- touchp.py lines 159–258, `main()`: resolve the time source (aborting with
exit code 1 on failure, before any file is touched), apply the `-a`/`-m`
selection, touch every path, and exit 1 if no path succeeded. -/
def main (env : Env) (parseDate : String → Option ℚ)
    (stamp : PyDateTime → ℚ) (nowYear nowSec : Nat) (args : Args) (s : Sys) :
    MainOut × Sys :=
  match resolveSource s.fs parseDate stamp nowYear nowSec args with
  | .error msg => (.exited 1, { s with err := s.err ++ [msg] })
  | .ok acmc =>
    let r := flagPhase env args.a args.m acmc.1 acmc.2 s
    let tl := touchLoop env r.1.2 r.1.1 args.no_create args.file r.2
    if tl.1 = [] then
      (.exited 1, { tl.2 with
        out := tl.2.out ++ ["touchp: No files were created or updated. Exiting."] })
    else (.gui tl.1, tl.2)

/-! ### Helper lemmas about the toucher -/

/-- Running `applyTimes` with at least one explicit slot on an existing file writes
`finalTimes` and succeeds. -/
theorem applyTimes_explicit (env : Env) (fp : String) (mtv atv : Option ℚ)
    (s : Sys) (st : FileStat) (hfs : s.fs fp = some st)
    (hok : env.utimeOk fp = true) (hne : ¬(mtv = none ∧ atv = none)) :
    applyTimes env fp mtv atv s =
      (true, { s with
        fs := fun q =>
          if q = fp then
            some ⟨(finalTimes mtv atv st).1, (finalTimes mtv atv st).2⟩
          else s.fs q }) := by
  unfold applyTimes
  rw [if_neg hne, hfs]
  simp [hok]

/-- Running `update_timestamps` on an existing file with at least one explicit slot
and a working `os.utime` writes `finalTimes` of the current stat. -/
theorem update_exists (env : Env) (fp : String) (mtv atv : Option ℚ)
    (nc : Bool) (s : Sys) (st : FileStat) (hfs : s.fs fp = some st)
    (hok : env.utimeOk fp = true) (hne : ¬(mtv = none ∧ atv = none)) :
    update_timestamps env fp mtv atv nc s =
      (true, { s with
        fs := fun q =>
          if q = fp then
            some ⟨(finalTimes mtv atv st).1, (finalTimes mtv atv st).2⟩
          else s.fs q }) := by
  unfold update_timestamps
  rw [hfs]
  exact applyTimes_explicit env fp mtv atv s st hfs hok hne

/-- The function `update_timestamps` never changes the filesystem at another path. -/
theorem update_fs_other (env : Env) (fp : String) (mtv atv : Option ℚ)
    (nc : Bool) (s : Sys) (q : String) (h : q ≠ fp) :
    ((update_timestamps env fp mtv atv nc s).2).fs q = s.fs q := by
  unfold update_timestamps applyTimes
  cases hfs : s.fs fp <;> simp only [hfs] <;> (repeat' split) <;>
    simp_all [h]

/-- The batch loop over `l1 ++ l2` is the loop over `l1` followed by the loop
over `l2` from the intermediate state: processing never aborts early. -/
theorem touchLoop_append (env : Env) (mtv atv : Option ℚ) (nc : Bool)
    (l1 l2 : List String) (s : Sys) :
    touchLoop env mtv atv nc (l1 ++ l2) s =
      ((touchLoop env mtv atv nc l1 s).1 ++
        (touchLoop env mtv atv nc l2 (touchLoop env mtv atv nc l1 s).2).1,
       (touchLoop env mtv atv nc l2 (touchLoop env mtv atv nc l1 s).2).2) := by
  induction l1 generalizing s with
  | nil => simp [touchLoop]
  | cons p rest ih =>
    simp only [List.cons_append, touchLoop, List.append_eq]
    rw [ih]
    split <;> simp

/-- The batch loop never changes the filesystem at a path it does not
process. -/
theorem touchLoop_fs_other (env : Env) (mtv atv : Option ℚ) (nc : Bool)
    (l : List String) (s : Sys) (q : String) (h : q ∉ l) :
    ((touchLoop env mtv atv nc l s).2).fs q = s.fs q := by
  induction l generalizing s with
  | nil => rfl
  | cons p rest ih =>
    simp only [touchLoop]
    rw [ih _ (fun hm => h (List.mem_cons_of_mem p hm)),
      update_fs_other env p mtv atv nc s q
        (fun hq => h (hq ▸ List.mem_cons_self p rest))]

/-- With both slots explicit and a working `os.utime`, `update_timestamps`
on an existing-or-creatable path succeeds, stamps the path with exactly
`(atime, mtime) = (a0, m0)`, and leaves every other path alone. -/
theorem update_sets (env : Env) (fp : String) (a0 m0 : ℚ) (nc : Bool)
    (s : Sys) (hok : env.utimeOk fp = true)
    (hex : s.fs fp ≠ none ∨ (nc = false ∧ env.createOk fp = true)) :
    (update_timestamps env fp (some m0) (some a0) nc s).1 = true ∧
    ((update_timestamps env fp (some m0) (some a0) nc s).2).fs fp =
      some ⟨a0, m0⟩ ∧
    ∀ r, r ≠ fp →
      ((update_timestamps env fp (some m0) (some a0) nc s).2).fs r = s.fs r := by
  cases hst : s.fs fp with
  | some st =>
    rw [update_exists env fp (some m0) (some a0) nc s st hst hok (by simp)]
    exact ⟨rfl, by simp [finalTimes], fun r hr => by simp [hr]⟩
  | none =>
    rcases hex with h1 | ⟨hnc, hcr⟩
    · exact absurd hst h1
    · subst hnc
      unfold update_timestamps
      simp only [hst]
      rw [if_neg (by simp), if_pos hcr]
      rw [applyTimes_explicit env fp (some m0) (some a0) _
        ⟨env.clock s.clk, env.clock s.clk⟩ (by simp) hok (by simp)]
      exact ⟨rfl, by simp [finalTimes], fun r hr => by simp [hr]⟩

/-- With both slots explicit, a working `os.utime` everywhere, and every path
existing or creatable, the batch loop stamps every processed path with
exactly `(atime, mtime) = (a0, m0)`. -/
theorem touchLoop_sets (env : Env) (a0 m0 : ℚ) (nc : Bool) :
    ∀ (l : List String) (s : Sys),
      (∀ p ∈ l, s.fs p ≠ none ∨ (nc = false ∧ env.createOk p = true)) →
      (∀ p ∈ l, env.utimeOk p = true) →
      ∀ p ∈ l, ((touchLoop env (some m0) (some a0) nc l s).2).fs p =
        some ⟨a0, m0⟩ := by
  intro l
  induction l with
  | nil => intro s _ _ p hp; cases hp
  | cons q rest ih =>
    intro s hex hok p hp
    obtain ⟨h1, h2, h3⟩ := update_sets env q a0 m0 nc s
      (hok q (List.mem_cons_self q rest)) (hex q (List.mem_cons_self q rest))
    simp only [touchLoop]
    have hrest : ∀ r ∈ rest,
        ((update_timestamps env q (some m0) (some a0) nc s).2).fs r ≠ none ∨
          (nc = false ∧ env.createOk r = true) := by
      intro r hr
      by_cases hrq : r = q
      · subst hrq; exact Or.inl (by rw [h2]; simp)
      · rcases hex r (List.mem_cons_of_mem q hr) with hh | hh
        · exact Or.inl (by rw [h3 r hrq]; exact hh)
        · exact Or.inr hh
    rcases List.mem_cons.1 hp with hpq | hpr
    · by_cases hmem : p ∈ rest
      · exact ih _ hrest (fun r hr => hok r (List.mem_cons_of_mem q hr)) p hmem
      · rw [touchLoop_fs_other env (some m0) (some a0) nc rest _ p hmem, hpq]
        exact h2
    · exact ih _ hrest (fun r hr => hok r (List.mem_cons_of_mem q hr)) p hpr

/-! ### Helper lemmas about the -t parser -/

theorem digit_beq_dot {c : Char} (h : c.isDigit = true) : (c == '.') = false := by
  by_contra hc
  have hb : c = '.' := by
    revert hc; cases hcc : c == '.'
    · intro hcontra; exact absurd rfl hcontra
    · intro _; exact beq_iff_eq.mp hcc
  subst hb
  exact absurd h (by decide)

theorem digit_ne_dot {c : Char} (h : c.isDigit = true) : c ≠ '.' := by
  intro hc
  subst hc
  exact absurd h (by decide)

theorem hasDot_eq_false {l : List Char} (h : ∀ c ∈ l, c.isDigit = true) :
    hasDot l = false := by
  simp only [hasDot, List.any_eq_false]
  intro c hc
  simp [digit_beq_dot (h c hc)]

theorem hasDot_append_dot (l1 l2 : List Char) :
    hasDot (l1 ++ '.' :: l2) = true := by
  simp [hasDot]

theorem splitDot_no_dot {l : List Char} (h : ∀ c ∈ l, c ≠ '.') :
    splitDot l = [l] := by
  induction l with
  | nil => rfl
  | cons c rest ih =>
    rw [splitDot, if_neg (h c (List.mem_cons_self c rest)),
      ih (fun x hx => h x (List.mem_cons_of_mem c hx))]

theorem splitDot_append {l1 : List Char} (l2 : List Char)
    (h : ∀ c ∈ l1, c ≠ '.') :
    splitDot (l1 ++ '.' :: l2) = l1 :: splitDot l2 := by
  induction l1 with
  | nil => simp [splitDot]
  | cons c rest ih =>
    rw [List.cons_append, splitDot, if_neg (h c (List.mem_cons_self c rest)),
      ih (fun x hx => h x (List.mem_cons_of_mem c hx))]

theorem digitChar_isDigit {k : Nat} (h : k < 10) :
    (Nat.digitChar k).isDigit = true := by
  interval_cases k <;> decide

theorem digitVal_digitChar {k : Nat} (h : k < 10) :
    digitVal (Nat.digitChar k) = k := by
  interval_cases k <;> decide

/-- Value of `str(y)` for a four-digit year. -/
theorem natDigits_four (y : Nat) (h1 : 1000 ≤ y) (h2 : y ≤ 9999) :
    natDigits y = [Nat.digitChar (y / 1000), Nat.digitChar (y / 100 % 10),
      Nat.digitChar (y / 10 % 10), Nat.digitChar (y % 10)] := by
  rw [natDigits]
  rw [dif_neg (by omega)]
  rw [natDigits]
  rw [dif_neg (by omega)]
  rw [natDigits]
  rw [dif_neg (by omega)]
  rw [natDigits]
  rw [dif_pos (by omega)]
  have e1 : y / 10 / 10 = y / 100 := by omega
  have e2 : y / 100 / 10 = y / 1000 := by omega
  rw [e1, e2]
  simp

/-- Value of `str(now.year)[:2]` for a four-digit current year. -/
theorem centuryDigits_four (y : Nat) (h1 : 1000 ≤ y) (h2 : y ≤ 9999) :
    centuryDigits y = [Nat.digitChar (y / 1000), Nat.digitChar (y / 100 % 10)] := by
  rw [centuryDigits, natDigits_four y h1 h2]
  rfl

theorem mkDatetime_pos (y m d h mi s : Nat) (h1 : 1 ≤ y) (h2 : y ≤ 9999)
    (h3 : 1 ≤ m) (h4 : m ≤ 12) (h5 : 1 ≤ d) (h6 : d ≤ daysInMonth y m)
    (h7 : h ≤ 23) (h8 : mi ≤ 59) (h9 : s ≤ 59) :
    mkDatetime y m d h mi s = some ⟨y, m, d, h, mi, s⟩ := by
  unfold mkDatetime
  rw [if_pos ⟨h1, h2, h3, h4, h5, h6, h7, h8, h9⟩]

/-- A valid 8-digit `-t` spec parses as `MMDDhhmm` in the current year with
the current second. -/
theorem parseT_eight (nowYear nowSec : Nat) (a1 a2 b1 b2 c1 c2 d1 d2 : Char)
    (hd : ∀ c ∈ [a1, a2, b1, b2, c1, c2, d1, d2], c.isDigit = true) :
    parseT nowYear nowSec [a1, a2, b1, b2, c1, c2, d1, d2] =
      mkDatetime nowYear
        (10 * digitVal a1 + digitVal a2) (10 * digitVal b1 + digitVal b2)
        (10 * digitVal c1 + digitVal c2) (10 * digitVal d1 + digitVal d2)
      nowSec := by
  have hdot := hasDot_eq_false hd
  simp only [parseT, hdot, Bool.false_eq_true, if_false]
  simp only [List.length_cons, List.length_nil]
  norm_num
  simp only [pyInt, List.take, List.drop]
  simp [hd a1 (by simp), hd a2 (by simp), hd b1 (by simp), hd b2 (by simp),
    hd c1 (by simp), hd c2 (by simp), hd d1 (by simp), hd d2 (by simp)]

/-- A valid 12-digit `-t` spec parses as `CCYYMMDDhhmm` with the year taken
literally and the current second. -/
theorem parseT_twelve (nowYear nowSec : Nat)
    (y1 y2 y3 y4 a1 a2 b1 b2 c1 c2 d1 d2 : Char)
    (hd : ∀ c ∈ [y1, y2, y3, y4, a1, a2, b1, b2, c1, c2, d1, d2],
      c.isDigit = true) :
    parseT nowYear nowSec [y1, y2, y3, y4, a1, a2, b1, b2, c1, c2, d1, d2] =
      mkDatetime
        (1000 * digitVal y1 + 100 * digitVal y2 + 10 * digitVal y3 +
          digitVal y4)
        (10 * digitVal a1 + digitVal a2) (10 * digitVal b1 + digitVal b2)
        (10 * digitVal c1 + digitVal c2) (10 * digitVal d1 + digitVal d2)
      nowSec := by
  have hdot := hasDot_eq_false hd
  simp only [parseT, hdot, Bool.false_eq_true, if_false]
  simp only [List.length_cons, List.length_nil]
  norm_num
  simp only [pyInt, List.take, List.drop]
  simp [hd y1 (by simp), hd y2 (by simp), hd y3 (by simp), hd y4 (by simp),
    hd a1 (by simp), hd a2 (by simp), hd b1 (by simp), hd b2 (by simp),
    hd c1 (by simp), hd c2 (by simp), hd d1 (by simp), hd d2 (by simp)]
  ring_nf

theorem digitVal_lt_ten {c : Char} (h : c.isDigit = true) : digitVal c < 10 := by
  simp [Char.isDigit, Char.le_def, UInt32.le_def, BitVec.le_def] at h
  have e : c.val.toBitVec.toNat = c.val.toNat := rfl
  simp only [digitVal, Char.toNat]
  omega

/-- A valid 10-digit `-t` spec parses as `YYMMDDhhmm`: the year is the
current century prefix (`str(now.year)[:2]`) glued to the given two digits. -/
theorem parseT_ten (nowYear nowSec : Nat) (hy1 : 1000 ≤ nowYear)
    (hy2 : nowYear ≤ 9999) (a1 a2 b1 b2 c1 c2 d1 d2 e1 e2 : Char)
    (hd : ∀ c ∈ [a1, a2, b1, b2, c1, c2, d1, d2, e1, e2], c.isDigit = true) :
    parseT nowYear nowSec [a1, a2, b1, b2, c1, c2, d1, d2, e1, e2] =
      mkDatetime
        (100 * (nowYear / 100) + (10 * digitVal a1 + digitVal a2))
        (10 * digitVal b1 + digitVal b2) (10 * digitVal c1 + digitVal c2)
        (10 * digitVal d1 + digitVal d2) (10 * digitVal e1 + digitVal e2)
      nowSec := by
  have hdot := hasDot_eq_false hd
  simp only [parseT, hdot, Bool.false_eq_true, if_false]
  simp only [List.length_cons, List.length_nil]
  norm_num
  rw [centuryDigits_four nowYear hy1 hy2]
  simp only [pyInt, List.take, List.drop, List.cons_append, List.nil_append]
  simp [hd a1 (by simp), hd a2 (by simp), hd b1 (by simp), hd b2 (by simp),
    hd c1 (by simp), hd c2 (by simp), hd d1 (by simp), hd d2 (by simp),
    hd e1 (by simp), hd e2 (by simp),
    digitChar_isDigit (show nowYear / 1000 < 10 by omega),
    digitChar_isDigit (show nowYear / 100 % 10 < 10 by omega),
    digitVal_digitChar (show nowYear / 1000 < 10 by omega),
    digitVal_digitChar (show nowYear / 100 % 10 < 10 by omega)]
  have hc : 100 * (nowYear / 100) =
      1000 * (nowYear / 1000) + 100 * (nowYear / 100 % 10) := by omega
  rw [hc]
  ring_nf

/-- A valid 12-digit `-t` spec with a `.ss` seconds part parses with the
given seconds. -/
theorem parseT_twelve_ss (nowYear nowSec : Nat)
    (y1 y2 y3 y4 a1 a2 b1 b2 c1 c2 d1 d2 s1 s2 : Char)
    (hd : ∀ c ∈ [y1, y2, y3, y4, a1, a2, b1, b2, c1, c2, d1, d2],
      c.isDigit = true)
    (hs : ∀ c ∈ [s1, s2], c.isDigit = true) :
    parseT nowYear nowSec
        ([y1, y2, y3, y4, a1, a2, b1, b2, c1, c2, d1, d2] ++ ['.', s1, s2]) =
      mkDatetime
        (1000 * digitVal y1 + 100 * digitVal y2 + 10 * digitVal y3 +
          digitVal y4)
        (10 * digitVal a1 + digitVal a2) (10 * digitVal b1 + digitVal b2)
        (10 * digitVal c1 + digitVal c2) (10 * digitVal d1 + digitVal d2)
      (10 * digitVal s1 + digitVal s2) := by
  have hsplit := splitDot_append [s1, s2]
    (fun c hc => digit_ne_dot (hd c hc))
  simp only [parseT, hasDot_append_dot, if_true, hsplit]
  rw [splitDot_no_dot (fun c hc => digit_ne_dot (hs c hc))]
  simp only [List.length_cons, List.length_nil]
  norm_num
  simp only [pyInt, List.take, List.drop]
  simp [hd y1 (by simp), hd y2 (by simp), hd y3 (by simp), hd y4 (by simp),
    hd a1 (by simp), hd a2 (by simp), hd b1 (by simp), hd b2 (by simp),
    hd c1 (by simp), hd c2 (by simp), hd d1 (by simp), hd d2 (by simp),
    hs s1 (by simp), hs s2 (by simp)]
  ring_nf


/-- C2: for every valid `-t` spec whose digit string (after removing an
optional trailing `.ss`) has length 8, 10, or 12, the resolved timestamp is
the calendar date/time literally encoded: 8 digits are `MMDDhhmm` in the
current year; 10 digits are `YYMMDDhhmm` with the year formed from the
current century prefix (`str(now.year)[:2]`) plus the given two-digit `YY`;
12 digits are `CCYYMMDDhhmm` with the four-digit year taken literally; the
seconds are the given `.ss`, or the current second when omitted. -/
theorem c2_t_spec_literal :
    (∀ nowYear nowSec : Nat, ∀ a1 a2 b1 b2 c1 c2 d1 d2 : Char,
      (∀ c ∈ [a1, a2, b1, b2, c1, c2, d1, d2], c.isDigit = true) →
      1 ≤ nowYear → nowYear ≤ 9999 → nowSec ≤ 59 →
      1 ≤ 10 * digitVal a1 + digitVal a2 →
      10 * digitVal a1 + digitVal a2 ≤ 12 →
      1 ≤ 10 * digitVal b1 + digitVal b2 →
      10 * digitVal b1 + digitVal b2 ≤
        daysInMonth nowYear (10 * digitVal a1 + digitVal a2) →
      10 * digitVal c1 + digitVal c2 ≤ 23 →
      10 * digitVal d1 + digitVal d2 ≤ 59 →
      parseT nowYear nowSec [a1, a2, b1, b2, c1, c2, d1, d2] =
        some ⟨nowYear, 10 * digitVal a1 + digitVal a2,
          10 * digitVal b1 + digitVal b2, 10 * digitVal c1 + digitVal c2,
          10 * digitVal d1 + digitVal d2, nowSec⟩) ∧
    (∀ nowYear nowSec : Nat, ∀ a1 a2 b1 b2 c1 c2 d1 d2 e1 e2 : Char,
      (∀ c ∈ [a1, a2, b1, b2, c1, c2, d1, d2, e1, e2], c.isDigit = true) →
      1000 ≤ nowYear → nowYear ≤ 9999 → nowSec ≤ 59 →
      1 ≤ 10 * digitVal b1 + digitVal b2 →
      10 * digitVal b1 + digitVal b2 ≤ 12 →
      1 ≤ 10 * digitVal c1 + digitVal c2 →
      10 * digitVal c1 + digitVal c2 ≤
        daysInMonth (100 * (nowYear / 100) + (10 * digitVal a1 + digitVal a2))
          (10 * digitVal b1 + digitVal b2) →
      10 * digitVal d1 + digitVal d2 ≤ 23 →
      10 * digitVal e1 + digitVal e2 ≤ 59 →
      parseT nowYear nowSec [a1, a2, b1, b2, c1, c2, d1, d2, e1, e2] =
        some ⟨100 * (nowYear / 100) + (10 * digitVal a1 + digitVal a2),
          10 * digitVal b1 + digitVal b2, 10 * digitVal c1 + digitVal c2,
          10 * digitVal d1 + digitVal d2, 10 * digitVal e1 + digitVal e2,
          nowSec⟩) ∧
    (∀ nowYear nowSec : Nat, ∀ y1 y2 y3 y4 a1 a2 b1 b2 c1 c2 d1 d2 : Char,
      (∀ c ∈ [y1, y2, y3, y4, a1, a2, b1, b2, c1, c2, d1, d2],
        c.isDigit = true) →
      1 ≤ 1000 * digitVal y1 + 100 * digitVal y2 + 10 * digitVal y3 +
        digitVal y4 →
      nowSec ≤ 59 →
      1 ≤ 10 * digitVal a1 + digitVal a2 →
      10 * digitVal a1 + digitVal a2 ≤ 12 →
      1 ≤ 10 * digitVal b1 + digitVal b2 →
      10 * digitVal b1 + digitVal b2 ≤
        daysInMonth (1000 * digitVal y1 + 100 * digitVal y2 +
          10 * digitVal y3 + digitVal y4) (10 * digitVal a1 + digitVal a2) →
      10 * digitVal c1 + digitVal c2 ≤ 23 →
      10 * digitVal d1 + digitVal d2 ≤ 59 →
      parseT nowYear nowSec [y1, y2, y3, y4, a1, a2, b1, b2, c1, c2, d1, d2] =
        some ⟨1000 * digitVal y1 + 100 * digitVal y2 + 10 * digitVal y3 +
          digitVal y4, 10 * digitVal a1 + digitVal a2,
          10 * digitVal b1 + digitVal b2, 10 * digitVal c1 + digitVal c2,
          10 * digitVal d1 + digitVal d2, nowSec⟩) ∧
    (∀ nowYear nowSec : Nat,
      ∀ y1 y2 y3 y4 a1 a2 b1 b2 c1 c2 d1 d2 s1 s2 : Char,
      (∀ c ∈ [y1, y2, y3, y4, a1, a2, b1, b2, c1, c2, d1, d2],
        c.isDigit = true) →
      (∀ c ∈ [s1, s2], c.isDigit = true) →
      1 ≤ 1000 * digitVal y1 + 100 * digitVal y2 + 10 * digitVal y3 +
        digitVal y4 →
      1 ≤ 10 * digitVal a1 + digitVal a2 →
      10 * digitVal a1 + digitVal a2 ≤ 12 →
      1 ≤ 10 * digitVal b1 + digitVal b2 →
      10 * digitVal b1 + digitVal b2 ≤
        daysInMonth (1000 * digitVal y1 + 100 * digitVal y2 +
          10 * digitVal y3 + digitVal y4) (10 * digitVal a1 + digitVal a2) →
      10 * digitVal c1 + digitVal c2 ≤ 23 →
      10 * digitVal d1 + digitVal d2 ≤ 59 →
      10 * digitVal s1 + digitVal s2 ≤ 59 →
      parseT nowYear nowSec
          ([y1, y2, y3, y4, a1, a2, b1, b2, c1, c2, d1, d2] ++
            ['.', s1, s2]) =
        some ⟨1000 * digitVal y1 + 100 * digitVal y2 + 10 * digitVal y3 +
          digitVal y4, 10 * digitVal a1 + digitVal a2,
          10 * digitVal b1 + digitVal b2, 10 * digitVal c1 + digitVal c2,
          10 * digitVal d1 + digitVal d2,
          10 * digitVal s1 + digitVal s2⟩) := by
  refine ⟨?_, ?_, ?_, ?_⟩
  · intro nowYear nowSec a1 a2 b1 b2 c1 c2 d1 d2 hd hy1 hy2 hsec hm1 hm2
      hd1 hd2 hh1 hmi1
    rw [parseT_eight nowYear nowSec a1 a2 b1 b2 c1 c2 d1 d2 hd]
    exact mkDatetime_pos _ _ _ _ _ _ hy1 hy2 hm1 hm2 hd1 hd2 hh1 hmi1 hsec
  · intro nowYear nowSec a1 a2 b1 b2 c1 c2 d1 d2 e1 e2 hd hy1 hy2 hsec hm1
      hm2 hd1 hd2 hh1 hmi1
    have va1 := digitVal_lt_ten (hd a1 (by simp))
    have va2 := digitVal_lt_ten (hd a2 (by simp))
    rw [parseT_ten nowYear nowSec hy1 hy2 a1 a2 b1 b2 c1 c2 d1 d2 e1 e2 hd]
    exact mkDatetime_pos _ _ _ _ _ _ (by omega) (by omega) hm1 hm2 hd1 hd2
      hh1 hmi1 hsec
  · intro nowYear nowSec y1 y2 y3 y4 a1 a2 b1 b2 c1 c2 d1 d2 hd hy1 hsec
      hm1 hm2 hd1 hd2 hh1 hmi1
    have v1 := digitVal_lt_ten (hd y1 (by simp))
    have v2 := digitVal_lt_ten (hd y2 (by simp))
    have v3 := digitVal_lt_ten (hd y3 (by simp))
    have v4 := digitVal_lt_ten (hd y4 (by simp))
    rw [parseT_twelve nowYear nowSec y1 y2 y3 y4 a1 a2 b1 b2 c1 c2 d1 d2 hd]
    exact mkDatetime_pos _ _ _ _ _ _ hy1 (by omega) hm1 hm2 hd1 hd2 hh1
      hmi1 hsec
  · intro nowYear nowSec y1 y2 y3 y4 a1 a2 b1 b2 c1 c2 d1 d2 s1 s2 hd hs
      hy1 hm1 hm2 hd1 hd2 hh1 hmi1 hss
    have v1 := digitVal_lt_ten (hd y1 (by simp))
    have v2 := digitVal_lt_ten (hd y2 (by simp))
    have v3 := digitVal_lt_ten (hd y3 (by simp))
    have v4 := digitVal_lt_ten (hd y4 (by simp))
    rw [parseT_twelve_ss nowYear nowSec y1 y2 y3 y4 a1 a2 b1 b2 c1 c2 d1 d2
      s1 s2 hd hs]
    exact mkDatetime_pos _ _ _ _ _ _ hy1 (by omega) hm1 hm2 hd1 hd2 hh1
      hmi1 hss

/-- C2 witness: `-t 202312251430` at current second 7 parses to
2023-12-25 14:30:07. -/
theorem c2_t_spec_literal_witness :
    parseT 2023 7 ['2', '0', '2', '3', '1', '2', '2', '5', '1', '4', '3', '0'] =
      some ⟨2023, 12, 25, 14, 30, 7⟩ := by
  have h := c2_t_spec_literal.2.2.1 2023 7 '2' '0' '2' '3' '1' '2' '2' '5'
    '1' '4' '3' '0' (by decide) (by decide) (by decide) (by decide)
    (by decide) (by decide) (by decide) (by decide) (by decide)
  rw [h]
  decide


theorem truthyS_some {r : String} (hr : r ≠ "") : truthyS (some r) = true := by
  simp [truthyS, hr]

theorem resolveSource_ref_ok (fs : String → Option FileStat)
    (pd : String → Option ℚ) (stamp : PyDateTime → ℚ) (ny ns : Nat)
    (args : Args) (r : String) (st : FileStat) (hargs : args.reference = some r)
    (hr : r ≠ "") (hfs : fs r = some st) :
    resolveSource fs pd stamp ny ns args =
      .ok (some st.st_atime, some st.st_mtime) := by
  unfold resolveSource
  rw [hargs]
  rw [if_pos (truthyS_some hr)]
  simp [hfs]

theorem resolveSource_none_src (fs : String → Option FileStat)
    (pd : String → Option ℚ) (stamp : PyDateTime → ℚ) (ny ns : Nat)
    (args : Args) (hnr : truthyS args.reference = false)
    (hnd : truthyS args.date = false) (hnt : truthyL args.t = false) :
    resolveSource fs pd stamp ny ns args = .ok (none, none) := by
  unfold resolveSource
  rw [hnr, hnd, hnt]
  simp

theorem orNow_nonzero (env : Env) (q : ℚ) (s : Sys) (hq : q ≠ 0) :
    orNow env (some q) s = (q, s) := by
  simp [orNow, hq]

theorem orNow_zero (env : Env) (s : Sys) :
    orNow env (some 0) s = (env.clock s.clk, { s with clk := s.clk + 1 }) := by
  simp [orNow]

theorem orNow_none (env : Env) (s : Sys) :
    orNow env none s = (env.clock s.clk, { s with clk := s.clk + 1 }) := by
  simp [orNow]

theorem flagPhase_a_only (env : Env) (X : ℚ) (mc : Option ℚ) (s : Sys)
    (hX : X ≠ 0) :
    flagPhase env true false (some X) mc s = ((some X, none), s) := by
  simp [flagPhase, orNow_nonzero env X s hX]

theorem flagPhase_m_only (env : Env) (Y : ℚ) (ac : Option ℚ) (s : Sys)
    (hY : Y ≠ 0) :
    flagPhase env false true ac (some Y) s = ((none, some Y), s) := by
  simp [flagPhase, orNow_nonzero env Y s hY]

theorem flagPhase_neither (env : Env) (X Y : ℚ) (s : Sys) (hX : X ≠ 0)
    (hY : Y ≠ 0) :
    flagPhase env false false (some X) (some Y) s = ((some X, some Y), s) := by
  simp [flagPhase, orNow_nonzero env X s hX, orNow_nonzero env Y s hY]

/-- Concrete environment for the closed examples: the first "now" samples
are 100, 101, 102; every OS call succeeds. -/
def exEnv : Env :=
  ⟨fun k => if k = 0 then 100 else if k = 1 then 101 else 102,
   fun _ => true, fun _ => true⟩

/-- Filesystem for the C1 counterexample: reference `r` has (atime, mtime) =
(3, 4); target `f` has (1, 7). -/
def c1fs : String → Option FileStat :=
  fun p => if p = "r" then some ⟨3, 4⟩ else if p = "f" then some ⟨1, 7⟩ else none

/-- C1 counterexample: running `-a -r r f` where reference `r` has atime 3 /
mtime 4 and target `f` has prior mtime M = 7 rewrites `f` to (atime, mtime)
= (3, 3): the resulting mtime is 3, not the prior 7, so the claim "the
resulting mtime still equals M" is false on the code. -/
theorem c1_counterexample :
    ((main exEnv (fun _ => none) (fun _ => 1) 2023 7
      ⟨["f"], true, false, false, none, some "r", none⟩
      ⟨c1fs, 0, [], []⟩).2).fs "f" = some ⟨3, 3⟩ ∧ (3 : ℚ) ≠ 7 := by
  exact ⟨by decide, by decide⟩

/-- C1 amended: with only `-a` and an explicit reference time source, the
target's access time is set to the resolved atime X, and — because the unset
mtime slot falls back to the sibling resolved value inside
`update_timestamps` — the modification time is **also** set to X; the prior
mtime M is not preserved (unless it happens to equal X). -/
theorem c1_only_a_sets_both (env : Env) (pd : String → Option ℚ)
    (stamp : PyDateTime → ℚ) (ny ns : Nat) (r f : String) (X Y A M : ℚ)
    (nc : Bool) (s : Sys) (hr : r ≠ "") (href : s.fs r = some ⟨X, Y⟩)
    (hf : s.fs f = some ⟨A, M⟩) (hX : X ≠ 0) (hok : env.utimeOk f = true) :
    (main env pd stamp ny ns ⟨[f], true, false, nc, none, some r, none⟩ s) =
      (.gui [f], { s with
        fs := fun q => if q = f then some ⟨X, X⟩ else s.fs q }) := by
  unfold main
  rw [resolveSource_ref_ok s.fs pd stamp ny ns _ r ⟨X, Y⟩ rfl hr href]
  simp only
  rw [flagPhase_a_only env X (some Y) s hX]
  simp only [touchLoop]
  rw [update_exists env f none (some X) nc s ⟨A, M⟩ hf hok (by simp)]
  simp [finalTimes]

/-- C1 witness: the amended theorem at the concrete counterexample input —
`-a -r r f` with reference times (3, 4) rewrites `f` to (3, 3). -/
theorem c1_only_a_sets_both_witness :
    (main exEnv (fun _ => none) (fun _ => 1) 2023 7
      ⟨["f"], true, false, false, none, some "r", none⟩
      ⟨c1fs, 0, [], []⟩) =
      (.gui ["f"],
        ⟨fun q => if q = "f" then some ⟨3, 3⟩ else c1fs q, 0, [], []⟩) := by
  exact c1_only_a_sets_both exEnv (fun _ => none) (fun _ => 1) 2023 7
    "r" "f" 3 4 1 7 false ⟨c1fs, 0, [], []⟩ (by decide) (by decide)
    (by decide) (by decide) rfl


/-- The fallback chain exactly as the spec words it (§4.1): explicit value →
sibling resolved value → file's existing stat value → current time.  This is
the spec-side definition for the refinement claim C3, to be compared with
the source-side `finalTimes`. -/
def specFallbackChain (explicit sibling statv : Option ℚ) (now : ℚ) : ℚ :=
  match explicit with
  | some v => v
  | none =>
    match sibling with
    | some v => v
    | none =>
      match statv with
      | some v => v
      | none => now

/-- C3: for an invocation where one timestamp slot is set and the other is
unset at apply time, `update_timestamps` fills the unset slot by the spec's
fallback chain in order — explicit value (absent), then the sibling resolved
value, then the file's existing stat value, then the current time —
which, the sibling being present, resolves to the sibling value, for any
stat value and any current time. -/
theorem c3_fallback_chain (env : Env) (fp : String) (v t : ℚ) (nc : Bool)
    (s : Sys) (st : FileStat) (hfs : s.fs fp = some st)
    (hok : env.utimeOk fp = true) :
    (((update_timestamps env fp none (some v) nc s).2).fs fp =
        some ⟨v, specFallbackChain none (some v) (some st.st_mtime) t⟩ ∧
      specFallbackChain none (some v) (some st.st_mtime) t = v) ∧
    (((update_timestamps env fp (some v) none nc s).2).fs fp =
        some ⟨specFallbackChain none (some v) (some st.st_atime) t, v⟩ ∧
      specFallbackChain none (some v) (some st.st_atime) t = v) := by
  refine ⟨⟨?_, rfl⟩, ⟨?_, rfl⟩⟩
  · rw [update_exists env fp none (some v) nc s st hfs hok (by simp)]
    simp [finalTimes, specFallbackChain]
  · rw [update_exists env fp (some v) none nc s st hfs hok (by simp)]
    simp [finalTimes, specFallbackChain]

/-- C3 witness: updating existing file `f` (stat (1, 7)) with atime 9 and
no mtime writes (9, 9): the unset mtime took the sibling value 9. -/
theorem c3_fallback_chain_witness :
    ((update_timestamps exEnv "f" none (some 9) false ⟨c1fs, 0, [], []⟩).2).fs
      "f" = some ⟨9, 9⟩ := by
  have h := (c3_fallback_chain exEnv "f" 9 0 false ⟨c1fs, 0, [], []⟩ ⟨1, 7⟩
    (by decide) rfl).1.1
  rw [h]
  decide

/-- Filesystem for the C4 counterexample: reference `r` has epoch atime 0 and
mtime 5; target `f` exists. -/
def c4fs : String → Option FileStat :=
  fun p => if p = "r" then some ⟨0, 5⟩ else if p = "f" then some ⟨1, 1⟩ else none

/-- C4 counterexample: with `-r r` where reference `r` has atime X = 0 (the
Unix epoch) and mtime Y = 5, the target's atime is set to the current clock
sample 100, not to X = 0: Python's `atime_change or now()` treats the falsy
float 0.0 as absent, so "sets every target file's access time to exactly X"
is false on the code. -/
theorem c4_counterexample :
    ((main exEnv (fun _ => none) (fun _ => 1) 2023 7
      ⟨["f"], false, false, false, none, some "r", none⟩
      ⟨c4fs, 0, [], []⟩).2).fs "f" = some ⟨100, 5⟩ ∧ (100 : ℚ) ≠ 0 := by
  exact ⟨by decide, by decide⟩

/-- C4 amended: for every existing reference file with access time X and
modify time Y, both nonzero, running with `-r` on that reference and neither
`-a` nor `-m` sets every target file's access time to exactly X and modify
time to exactly Y (a zero slot would instead be replaced by the current
time, see C9). -/
theorem c4_reference_copies_times (env : Env) (pd : String → Option ℚ)
    (stamp : PyDateTime → ℚ) (ny ns : Nat) (r : String) (X Y : ℚ)
    (files : List String) (nc : Bool) (s : Sys) (hr : r ≠ "")
    (href : s.fs r = some ⟨X, Y⟩) (hX : X ≠ 0) (hY : Y ≠ 0)
    (hex : ∀ p ∈ files, s.fs p ≠ none ∨ (nc = false ∧ env.createOk p = true))
    (hok : ∀ p ∈ files, env.utimeOk p = true) :
    ∀ p ∈ files,
      ((main env pd stamp ny ns
        ⟨files, false, false, nc, none, some r, none⟩ s).2).fs p =
        some ⟨X, Y⟩ := by
  intro p hp
  unfold main
  rw [resolveSource_ref_ok s.fs pd stamp ny ns _ r ⟨X, Y⟩ rfl hr href]
  simp only
  rw [flagPhase_neither env X Y s hX hY]
  simp only
  have hsets := touchLoop_sets env X Y nc files s hex hok p hp
  split <;> exact hsets

/-- C4 witness: `-r r f` with reference times (3, 4) stamps `f` with
exactly (3, 4). -/
theorem c4_reference_copies_times_witness :
    ((main exEnv (fun _ => none) (fun _ => 1) 2023 7
      ⟨["f"], false, false, false, none, some "r", none⟩
      ⟨c1fs, 0, [], []⟩).2).fs "f" = some ⟨3, 4⟩ := by
  exact c4_reference_copies_times exEnv (fun _ => none) (fun _ => 1) 2023 7
    "r" 3 4 ["f"] false ⟨c1fs, 0, [], []⟩ (by decide) (by decide) (by decide)
    (by decide) (by decide) (by decide) "f" (by decide)


theorem truthyL_some {l : List Char} (h : l ≠ []) : truthyL (some l) = true := by
  simp [truthyL, h]

theorem resolveSource_ref_missing (fs : String → Option FileStat)
    (pd : String → Option ℚ) (stamp : PyDateTime → ℚ) (ny ns : Nat)
    (args : Args) (r : String) (hargs : args.reference = some r) (hr : r ≠ "")
    (hfs : fs r = none) :
    resolveSource fs pd stamp ny ns args =
      .error ("touchp: failed to get attributes of " ++ r ++
        ": No such file or directory") := by
  unfold resolveSource
  rw [hargs, if_pos (truthyS_some hr)]
  simp [hfs]

theorem resolveSource_date_bad (fs : String → Option FileStat)
    (pd : String → Option ℚ) (stamp : PyDateTime → ℚ) (ny ns : Nat)
    (args : Args) (d : String) (hnr : truthyS args.reference = false)
    (hargs : args.date = some d) (hd : d ≠ "") (hpd : pd d = none) :
    resolveSource fs pd stamp ny ns args =
      .error ("touchp: invalid date format " ++ d) := by
  unfold resolveSource
  rw [hnr, hargs]
  simp only [Bool.false_eq_true, if_false]
  rw [if_pos (truthyS_some hd)]
  simp [hpd]

theorem resolveSource_t_bad (fs : String → Option FileStat)
    (pd : String → Option ℚ) (stamp : PyDateTime → ℚ) (ny ns : Nat)
    (args : Args) (tl : List Char) (hnr : truthyS args.reference = false)
    (hnd : truthyS args.date = false) (hargs : args.t = some tl)
    (htl : tl ≠ []) (hpt : parseT ny ns tl = none) :
    resolveSource fs pd stamp ny ns args =
      .error "touchp: invalid date format for -t spec" := by
  unfold resolveSource
  rw [hnr, hnd, hargs]
  simp only [Bool.false_eq_true, if_false]
  rw [if_pos (truthyL_some htl)]
  simp [hpt]

theorem main_error (env : Env) (pd : String → Option ℚ)
    (stamp : PyDateTime → ℚ) (ny ns : Nat) (args : Args) (s : Sys)
    (msg : String)
    (hres : resolveSource s.fs pd stamp ny ns args = .error msg) :
    main env pd stamp ny ns args s =
      (.exited 1, { s with err := s.err ++ [msg] }) := by
  unfold main
  rw [hres]

theorem flagPhase_fs (env : Env) (a m : Bool) (ac mc : Option ℚ) (s : Sys) :
    ((flagPhase env a m ac mc s).2).fs = s.fs ∧
    ((flagPhase env a m ac mc s).2).out = s.out ∧
    ((flagPhase env a m ac mc s).2).err = s.err := by
  unfold flagPhase orNow
  repeat' split
  all_goals simp

theorem update_noCreate_skip (env : Env) (fp : String) (mtv atv : Option ℚ)
    (s : Sys) (hfs : s.fs fp = none) :
    update_timestamps env fp mtv atv true s =
      (false, { s with out := s.out ++ [skipMsg fp] }) := by
  unfold update_timestamps
  rw [hfs]
  simp


/-- C5: whenever the time source fails to resolve — the `-r` reference file
does not exist, the `-d` string is unparseable, or the `-t` spec is invalid
— `main` exits with code 1, appends one message to the error stream, and
leaves the filesystem untouched (no file created or re-stamped).  The last
two conjuncts show the `-t` failure conditions: a digit-string length other
than 8/10/12 makes `parseT` fail, and an out-of-range field makes the
`datetime` constructor fail. -/
theorem c5_source_failure_aborts :
    (∀ (env : Env) (pd : String → Option ℚ) (stamp : PyDateTime → ℚ)
      (ny ns : Nat) (args : Args) (s : Sys) (r : String),
      args.reference = some r → r ≠ "" → s.fs r = none →
      main env pd stamp ny ns args s =
        (.exited 1, { s with err := s.err ++
          ["touchp: failed to get attributes of " ++ r ++
            ": No such file or directory"] }) ∧
      ((main env pd stamp ny ns args s).2).fs = s.fs) ∧
    (∀ (env : Env) (pd : String → Option ℚ) (stamp : PyDateTime → ℚ)
      (ny ns : Nat) (args : Args) (s : Sys) (d : String),
      truthyS args.reference = false → args.date = some d → d ≠ "" →
      pd d = none →
      main env pd stamp ny ns args s =
        (.exited 1, { s with err := s.err ++
          ["touchp: invalid date format " ++ d] }) ∧
      ((main env pd stamp ny ns args s).2).fs = s.fs) ∧
    (∀ (env : Env) (pd : String → Option ℚ) (stamp : PyDateTime → ℚ)
      (ny ns : Nat) (args : Args) (s : Sys) (tl : List Char),
      truthyS args.reference = false → truthyS args.date = false →
      args.t = some tl → tl ≠ [] → parseT ny ns tl = none →
      main env pd stamp ny ns args s =
        (.exited 1, { s with err := s.err ++
          ["touchp: invalid date format for -t spec"] }) ∧
      ((main env pd stamp ny ns args s).2).fs = s.fs) ∧
    (∀ (ny ns : Nat) (tl : List Char), hasDot tl = false →
      tl.length ≠ 8 → tl.length ≠ 10 → tl.length ≠ 12 →
      parseT ny ns tl = none) ∧
    (∀ y m d h mi ss : Nat,
      ¬(1 ≤ y ∧ y ≤ 9999 ∧ 1 ≤ m ∧ m ≤ 12 ∧ 1 ≤ d ∧ d ≤ daysInMonth y m ∧
        h ≤ 23 ∧ mi ≤ 59 ∧ ss ≤ 59) →
      mkDatetime y m d h mi ss = none) := by
  refine ⟨?_, ?_, ?_, ?_, ?_⟩
  · intro env pd stamp ny ns args s r h1 h2 h3
    have hm := main_error env pd stamp ny ns args s _
      (resolveSource_ref_missing s.fs pd stamp ny ns args r h1 h2 h3)
    exact ⟨hm, by rw [hm]⟩
  · intro env pd stamp ny ns args s d h1 h2 h3 h4
    have hm := main_error env pd stamp ny ns args s _
      (resolveSource_date_bad s.fs pd stamp ny ns args d h1 h2 h3 h4)
    exact ⟨hm, by rw [hm]⟩
  · intro env pd stamp ny ns args s tl h1 h2 h3 h4 h5
    have hm := main_error env pd stamp ny ns args s _
      (resolveSource_t_bad s.fs pd stamp ny ns args tl h1 h2 h3 h4 h5)
    exact ⟨hm, by rw [hm]⟩
  · intro ny ns tl hdot h8 h10 h12
    unfold parseT
    simp only [hdot, Bool.false_eq_true, if_false]
    rw [if_neg h8, if_neg h10, if_neg h12]
  · intro y m d h mi ss hrange
    unfold mkDatetime
    rw [if_neg hrange]

/-- C5 witness: `-r nope f` with `nope` missing exits with code 1, prints
the attributes error to stderr, and leaves the filesystem unchanged. -/
theorem c5_source_failure_aborts_witness :
    main exEnv (fun _ => none) (fun _ => 1) 2023 7
      ⟨["f"], false, false, false, none, some "nope", none⟩
      ⟨c1fs, 0, [], []⟩ =
      (.exited 1, ⟨c1fs, 0, [],
        ["touchp: failed to get attributes of nope" ++
          ": No such file or directory"]⟩) := by
  have h := (c5_source_failure_aborts.1 exEnv (fun _ => none) (fun _ => 1)
    2023 7 ⟨["f"], false, false, false, none, some "nope", none⟩
    ⟨c1fs, 0, [], []⟩ "nope" rfl (by decide) (by decide)).1
  rw [h]
  rfl


/-- C6: the batch loop processes every path: the loop over `l1 ++ l2` is
the loop over `l1` followed by the loop over `l2` (no early abort); a path
whose touch fails is merely dropped from the successes while the loop goes
on; touching one path never changes the filesystem at another path; and
when the successes are nonempty `main` reaches the GUI hand-off, whose
normal termination is exit code 0. -/
theorem c6_batch_independent_exit0 :
    (∀ (env : Env) (mtv atv : Option ℚ) (nc : Bool) (l1 l2 : List String)
      (s : Sys),
      touchLoop env mtv atv nc (l1 ++ l2) s =
        ((touchLoop env mtv atv nc l1 s).1 ++
          (touchLoop env mtv atv nc l2 (touchLoop env mtv atv nc l1 s).2).1,
         (touchLoop env mtv atv nc l2 (touchLoop env mtv atv nc l1 s).2).2)) ∧
    (∀ (env : Env) (mtv atv : Option ℚ) (nc : Bool) (p : String)
      (rest : List String) (s : Sys),
      (update_timestamps env p mtv atv nc s).1 = false →
      (touchLoop env mtv atv nc (p :: rest) s).1 =
        (touchLoop env mtv atv nc rest
          (update_timestamps env p mtv atv nc s).2).1) ∧
    (∀ (env : Env) (fp : String) (mtv atv : Option ℚ) (nc : Bool) (s : Sys)
      (q : String), q ≠ fp →
      ((update_timestamps env fp mtv atv nc s).2).fs q = s.fs q) ∧
    (∀ (env : Env) (pd : String → Option ℚ) (stamp : PyDateTime → ℚ)
      (ny ns : Nat) (args : Args) (s : Sys) (acmc : Option ℚ × Option ℚ),
      resolveSource s.fs pd stamp ny ns args = .ok acmc →
      ∀ r1 tl, r1 = flagPhase env args.a args.m acmc.1 acmc.2 s →
      tl = touchLoop env r1.1.2 r1.1.1 args.no_create args.file r1.2 →
      tl.1 ≠ [] →
      main env pd stamp ny ns args s = (.gui tl.1, tl.2) ∧
      exitCode (main env pd stamp ny ns args s).1 = 0) := by
  refine ⟨touchLoop_append, ?_, update_fs_other, ?_⟩
  · intro env mtv atv nc p rest s hfail
    simp only [touchLoop, hfail]
    simp
  · intro env pd stamp ny ns args s acmc hres r1 tl hr1 htl hne
    have hm : main env pd stamp ny ns args s = (.gui tl.1, tl.2) := by
      unfold main
      rw [hres]
      simp only
      rw [← hr1, ← htl, if_neg hne]
    exact ⟨hm, by rw [hm]; rfl⟩

/-- C6 witness: touching `["f", "zzz"]` with `-c -r r` where `zzz` is
missing still touches `f`, reports successes `["f"]`, and exits 0. -/
theorem c6_batch_independent_exit0_witness :
    main exEnv (fun _ => none) (fun _ => 1) 2023 7
      ⟨["f", "zzz"], false, false, true, none, some "r", none⟩
      ⟨c1fs, 0, [], []⟩ =
      (.gui ["f"],
        ⟨fun q => if q = "f" then some ⟨3, 4⟩ else c1fs q, 0,
          [skipMsg "zzz"], []⟩) := by
  have h := (c6_batch_independent_exit0.2.2.2 exEnv (fun _ => none)
    (fun _ => 1) 2023 7 ⟨["f", "zzz"], false, false, true, none, some "r", none⟩
    ⟨c1fs, 0, [], []⟩ (some 3, some 4) (by rfl) _ _ rfl rfl (by decide)).1
  rw [h]
  rfl

/-- C7: for a non-existent target processed with `-c`/`--no-create`,
`update_timestamps` creates nothing, emits a diagnostic naming the path,
and reports failure (so the path is excluded from the successful set); the
loop continues with the remaining paths; and when it was the only path,
`main` exits with code 1. -/
theorem c7_no_create_skip :
    (∀ (env : Env) (fp : String) (mtv atv : Option ℚ) (s : Sys),
      s.fs fp = none →
      update_timestamps env fp mtv atv true s =
        (false, { s with out := s.out ++ [skipMsg fp] })) ∧
    (∀ (env : Env) (mtv atv : Option ℚ) (fp : String) (rest : List String)
      (s : Sys), s.fs fp = none →
      touchLoop env mtv atv true (fp :: rest) s =
        (touchLoop env mtv atv true rest
          { s with out := s.out ++ [skipMsg fp] })) ∧
    (∀ (env : Env) (pd : String → Option ℚ) (stamp : PyDateTime → ℚ)
      (ny ns : Nat) (s : Sys) (fp : String) (a m : Bool),
      s.fs fp = none →
      (main env pd stamp ny ns ⟨[fp], a, m, true, none, none, none⟩ s).1 =
        .exited 1) := by
  refine ⟨update_noCreate_skip, ?_, ?_⟩
  · intro env mtv atv fp rest s hfs
    simp only [touchLoop, update_noCreate_skip env fp mtv atv s hfs]
    simp
  · intro env pd stamp ny ns s fp a m hfs
    unfold main
    rw [resolveSource_none_src s.fs pd stamp ny ns
      ⟨[fp], a, m, true, none, none, none⟩ rfl rfl rfl]
    simp only
    have hfs1 : ((flagPhase env a m none none s).2).fs fp = none := by
      rw [(flagPhase_fs env a m none none s).1]
      exact hfs
    simp only [touchLoop]
    rw [update_noCreate_skip env fp _ _ _ hfs1]
    simp

/-- C7 witness: `-c zzz` with `zzz` missing exits with code 1. -/
theorem c7_no_create_skip_witness :
    (main exEnv (fun _ => none) (fun _ => 1) 2023 7
      ⟨["zzz"], false, false, true, none, none, none⟩
      ⟨c1fs, 0, [], []⟩).1 = .exited 1 := by
  exact c7_no_create_skip.2.2 exEnv (fun _ => none) (fun _ => 1) 2023 7
    ⟨c1fs, 0, [], []⟩ "zzz" false false (by decide)


theorem flagPhase_neither_none (env : Env) (s : Sys) :
    flagPhase env false false none none s =
      ((some (env.clock s.clk), some (env.clock (s.clk + 1))),
       { s with clk := s.clk + 1 + 1 }) := by
  simp [flagPhase, orNow]

/-- C8 counterexample: with no time source and neither `-a` nor `-m`, the
file is stamped (100, 101): `atime_final` and `mtime_final` come from two
separate `datetime.datetime.now()` calls (touchp.py lines 234–235), so the
written access and modify times differ — the claim "the access and modify
times written are equal to each other" is false on the code. -/
theorem c8_counterexample :
    ((main exEnv (fun _ => none) (fun _ => 1) 2023 7
      ⟨["f"], false, false, false, none, none, none⟩
      ⟨c1fs, 0, [], []⟩).2).fs "f" = some ⟨100, 101⟩ ∧
    (100 : ℚ) ≠ 101 := by
  exact ⟨by decide, by decide⟩

/-- C8 amended: with no time source, the base timestamps are captured once
before the file loop, so every target file in one invocation receives the
identical pair — but that pair consists of two successive clock samples
(one per slot), not one single instant, so the written atime and mtime need
not be equal. -/
theorem c8_single_capture_per_pass (env : Env) (pd : String → Option ℚ)
    (stamp : PyDateTime → ℚ) (ny ns : Nat) (files : List String) (nc : Bool)
    (s : Sys)
    (hex : ∀ p ∈ files, s.fs p ≠ none ∨ (nc = false ∧ env.createOk p = true))
    (hok : ∀ p ∈ files, env.utimeOk p = true) :
    ∀ p ∈ files,
      ((main env pd stamp ny ns ⟨files, false, false, nc, none, none, none⟩
        s).2).fs p = some ⟨env.clock s.clk, env.clock (s.clk + 1)⟩ := by
  intro p hp
  unfold main
  rw [resolveSource_none_src s.fs pd stamp ny ns
    ⟨files, false, false, nc, none, none, none⟩ rfl rfl rfl]
  simp only
  rw [flagPhase_neither_none env s]
  simp only
  have hsets := touchLoop_sets env (env.clock s.clk) (env.clock (s.clk + 1))
    nc files { s with clk := s.clk + 1 + 1 } hex hok p hp
  split <;> exact hsets

/-- C8 witness: the amended theorem at a concrete input — one existing
file, no source, no flags — yields the two successive samples (100, 101). -/
theorem c8_single_capture_per_pass_witness :
    ((main exEnv (fun _ => none) (fun _ => 1) 2023 7
      ⟨["f"], false, false, false, none, none, none⟩
      ⟨c1fs, 0, [], []⟩).2).fs "f" = some ⟨100, 101⟩ := by
  have h := c8_single_capture_per_pass exEnv (fun _ => none) (fun _ => 1)
    2023 7 ["f"] false ⟨c1fs, 0, [], []⟩ (by decide) (by decide) "f"
    (by decide)
  rw [h]
  rfl

/-- C9: if a resolved base timestamp is exactly 0 (the Unix epoch), the
program silently substitutes the current time for that slot: `orNow` (the
model of Python's `x or now()`) replaces both `None` and `0` by a fresh
clock sample and keeps any nonzero value; end to end, `-r r` on a reference
with epoch atime and mtime stamps the target with two current clock
samples instead of 0. -/
theorem c9_zero_timestamp_now :
    (∀ (env : Env) (s : Sys), orNow env (some 0) s =
      (env.clock s.clk, { s with clk := s.clk + 1 })) ∧
    (∀ (env : Env) (q : ℚ) (s : Sys), q ≠ 0 →
      orNow env (some q) s = (q, s)) ∧
    (∀ (env : Env) (pd : String → Option ℚ) (stamp : PyDateTime → ℚ)
      (ny ns : Nat) (r f : String) (A M : ℚ) (nc : Bool) (s : Sys),
      r ≠ "" → s.fs r = some ⟨0, 0⟩ → s.fs f = some ⟨A, M⟩ →
      env.utimeOk f = true →
      ((main env pd stamp ny ns ⟨[f], false, false, nc, none, some r, none⟩
        s).2).fs f = some ⟨env.clock s.clk, env.clock (s.clk + 1)⟩) := by
  refine ⟨orNow_zero, orNow_nonzero, ?_⟩
  intro env pd stamp ny ns r f A M nc s hr href hf hok
  unfold main
  rw [resolveSource_ref_ok s.fs pd stamp ny ns _ r ⟨0, 0⟩ rfl hr href]
  simp only
  have hfp : flagPhase env false false (some 0) (some 0) s =
      ((some (env.clock s.clk), some (env.clock (s.clk + 1))),
       { s with clk := s.clk + 1 + 1 }) := by
    simp [flagPhase, orNow]
  rw [hfp]
  simp only [touchLoop]
  rw [update_exists env f (some (env.clock (s.clk + 1)))
    (some (env.clock s.clk)) nc { s with clk := s.clk + 1 + 1 } ⟨A, M⟩ hf hok
    (by simp)]
  simp [finalTimes]

/-- Filesystem for the C9 witness: reference `r` carries epoch timestamps. -/
def c9fs : String → Option FileStat :=
  fun p => if p = "r" then some ⟨0, 0⟩ else if p = "f" then some ⟨1, 1⟩ else none

/-- C9 witness: a reference with times (0, 0) makes the target receive the
clock samples (100, 101) rather than the epoch. -/
theorem c9_zero_timestamp_now_witness :
    ((main exEnv (fun _ => none) (fun _ => 1) 2023 7
      ⟨["f"], false, false, false, none, some "r", none⟩
      ⟨c9fs, 0, [], []⟩).2).fs "f" = some ⟨100, 101⟩ := by
  have h := c9_zero_timestamp_now.2.2 exEnv (fun _ => none) (fun _ => 1)
    2023 7 "r" "f" 1 1 false ⟨c9fs, 0, [], []⟩ (by decide) (by decide)
    (by decide) rfl
  rw [h]
  rfl

/-- Environment for the C10 witness: creation succeeds, `os.utime` fails. -/
def exEnvBadUtime : Env :=
  ⟨fun k => if k = 0 then 100 else if k = 1 then 101 else 102,
   fun _ => true, fun _ => false⟩

/-- C10: touch of a missing path is not atomic on error: when creation
succeeds but `os.utime` then fails, `update_timestamps` reports failure
(path excluded from the successes, stderr message) while the newly created
empty file — stamped with its creation instant — remains in the
filesystem. -/
theorem c10_partial_touch_leaves_file (env : Env) (fp : String)
    (mtv atv : Option ℚ) (s : Sys) (hfs : s.fs fp = none)
    (hcr : env.createOk fp = true) (hut : env.utimeOk fp = false) :
    (update_timestamps env fp mtv atv false s).1 = false ∧
    ((update_timestamps env fp mtv atv false s).2).fs fp =
      some ⟨env.clock s.clk, env.clock s.clk⟩ ∧
    ((update_timestamps env fp mtv atv false s).2).err =
      s.err ++ ["touchp: setting times for " ++ fp] ∧
    (touchLoop env mtv atv false [fp] s).1 = [] := by
  have hmain : update_timestamps env fp mtv atv false s =
      (false, { s with
        fs := fun q =>
          if q = fp then some ⟨env.clock s.clk, env.clock s.clk⟩ else s.fs q,
        clk := s.clk + 1,
        out := s.out ++ ["touchp: created " ++ fp],
        err := s.err ++ ["touchp: setting times for " ++ fp] }) := by
    unfold update_timestamps applyTimes
    rw [hfs]
    simp [hcr, hut]
  refine ⟨by rw [hmain], by rw [hmain]; simp, by rw [hmain], ?_⟩
  simp only [touchLoop, hmain]
  simp

/-- C10 witness: with creation succeeding and `os.utime` failing, touching
missing `g` returns failure yet leaves `g` on disk with its creation
stat (100, 100). -/
theorem c10_partial_touch_leaves_file_witness :
    (update_timestamps exEnvBadUtime "g" (some 5) (some 6) false
      ⟨c1fs, 0, [], []⟩).1 = false ∧
    ((update_timestamps exEnvBadUtime "g" (some 5) (some 6) false
      ⟨c1fs, 0, [], []⟩).2).fs "g" = some ⟨100, 100⟩ := by
  have h := c10_partial_touch_leaves_file exEnvBadUtime "g" (some 5) (some 6)
    ⟨c1fs, 0, [], []⟩ (by decide) rfl rfl
  exact ⟨h.1, h.2.1⟩

end Touchp
